import Mathlib

/-!
# Webhook-triggered resource checks (`atc/api/resourceserver/check_webhook.go`)

A shallow embedding of the two HTTP handlers `CheckResourceWebHook` and
`CheckSharedWebHook`.

* Collaborators (pipeline persistence, credential resolver, resource-config
  factory, resource factory) are records of the values their methods return.
* A handler is a function from these records and a request to a `Run`: the
  effects of the handler body in program order, plus, for every `go`
  statement executed, the effects of the goroutine body in program order.
* Effects are `Event`s: log records, `WriteHeader` calls and collaborator calls.

Go multi-value returns `(value, found, err)` are records with these three
fields; a Go `error` is `Option GoError` (`none` is `nil`).
-/

namespace Concourse

/-! ## Values -/

/-- Go `error` values. `db.ResourceNotFoundError` is the only error type the
handlers name (in the type switch of `CheckSharedWebHook`); any other error is
`other`. -/
inductive GoError where
  | resourceNotFound (name : String)
  | other (msg : String)
  deriving DecidableEq, Repr

/-- The Go type `atc.Version` (and `db.Version`), a `map[string]string`.
`none` is the nil map, the zero value of `var fromVersion atc.Version`. -/
abbrev Version := Option (List (String × String))

/-- Status constants of `net/http` used by the handlers. -/
def StatusOK : Nat := 200
/-- Constant `http.StatusBadRequest`. -/
def StatusBadRequest : Nat := 400
/-- Constant `http.StatusUnauthorized`. -/
def StatusUnauthorized : Nat := 401
/-- Constant `http.StatusNotFound`. -/
def StatusNotFound : Nat := 404
/-- Constant `http.StatusInternalServerError`. -/
def StatusInternalServerError : Nat := 500

/-! ## Request -/

/-- The Go type `url.Values`, a `map[string][]string`, as an association list. -/
abbrev Values := List (String × List String)

/-- The method `url.Values.Get`: the first value stored under `key`, and `""`
when the key is missing or has no values. -/
def Values.Get (v : Values) (key : String) : String :=
  match v.lookup key with
  | some (x :: _) => x
  | _ => ""

/-- The parts of `*http.Request` the handlers read: the route parameters
(read through `rata.Param`) and the URL query (`r.URL.Query()`). -/
structure Request where
  params : List (String × String)
  query : Values
  deriving Repr

/-- The call `rata.Param(r, name)`: the route parameter, `""` when absent. -/
def rataParam (r : Request) (name : String) : String :=
  (r.params.lookup name).getD ""

/-! ## Logging -/

/-- A `lager.Logger`, identified by its task (session) name. -/
structure Logger where
  task : String
  deriving DecidableEq, Repr

/-- The method `lager.Logger.Session`: a child logger whose task name is the
parent name, a dot, and the session name. -/
def Logger.Session (l : Logger) (name : String) : Logger :=
  { task := l.task ++ "." ++ name }

/-- A value stored in `lager.Data`. -/
inductive LagerValue where
  | str (s : String)
  | int (n : Int)
  deriving DecidableEq, Repr

/-- The Go type `lager.Data`. -/
abbrev LagerData := List (String × LagerValue)

/-! ## Persistence records -/

/-- A `db.Resource` as read by the handlers. -/
structure DBResource where
  Name : String
  WebhookToken : String
  ResourceConfigID : Int
  deriving DecidableEq, Repr

/-- What `dbPipeline.Resource(name)` returns: `(resource, found, err)`. -/
structure ResourceLookup where
  resource : DBResource
  found : Bool
  err : Option GoError
  deriving DecidableEq, Repr

/-- A `db.Pipeline` as read by the handlers. -/
structure Pipeline where
  TeamName : String
  Name : String
  Resource : String → ResourceLookup

/-- A `db.ResourceConfigVersion`; the handlers read only `Version()`. -/
structure ResourceConfigVersion where
  Version : Version
  deriving DecidableEq, Repr

/-- What `resourceConfig.LatestVersion()` returns: `(version, found, err)`. -/
structure LatestVersionResult where
  version : ResourceConfigVersion
  found : Bool
  err : Option GoError
  deriving DecidableEq, Repr

/-- A `db.ResourceConfig`; the handlers read only `LatestVersion()`. -/
structure ResourceConfig where
  LatestVersion : LatestVersionResult
  deriving DecidableEq, Repr

/-- What `FindResourceConfigByID(id)` returns: `(resourceConfig, found, err)`. -/
structure FindResourceConfigResult where
  resourceConfig : ResourceConfig
  found : Bool
  err : Option GoError
  deriving DecidableEq, Repr

/-- What `creds.String.Evaluate()` returns: `(string, err)`. -/
structure EvaluateResult where
  token : String
  err : Option GoError
  deriving DecidableEq, Repr

/-- What `GetResourcesByWebhookToken` returns: `(resources, err)`. -/
structure GetResourcesResult where
  resources : List DBResource
  err : Option GoError
  deriving DecidableEq, Repr

/-- The fields of `Server` the handlers use.

* `logger` is `s.logger`; `hLog` is the logger named at line 104, which the
  file does not declare.
* `Evaluate team pipeline raw` is the result of
  `creds.NewString(s.variablesFactory.NewVariables(team, pipeline), raw).Evaluate()`.
* `FindResourceConfigByID` is `s.resourceConfigFactory.FindResourceConfigByID`.
* `GetResourcesByWebhookToken` is `s.resourceFactory.GetResourcesByWebhookToken`.

The scanner of `s.scannerFactory` has no field: the handlers discard what
`ScanFromVersion` returns, so only the call itself is recorded. -/
structure Server where
  logger : Logger
  hLog : Logger
  Evaluate : String → String → String → EvaluateResult
  FindResourceConfigByID : Int → FindResourceConfigResult
  GetResourcesByWebhookToken : String → String → String → GetResourcesResult

/-! ## Effects -/

/-- One observable effect of a handler or of a goroutine it starts. -/
inductive Event where
  | logInfo (logger : Logger) (action : String) (data : LagerData)
  | logError (logger : Logger) (action : String) (err : GoError) (data : LagerData)
  | writeHeader (status : Nat)
  | callResource (name : String)
  | callNewVariables (team pipeline : String)
  | callEvaluate (raw : String)
  | callFindResourceConfigByID (id : Int)
  | callLatestVersion (id : Int)
  | callNewResourceScanner
  | callScanFromVersion (logger : Logger) (resourceName : String) (fromVersion : Version)
  | callGetResourcesByWebhookToken (token key value : String)
  deriving DecidableEq, Repr

/-- The effects of one handled request: those of the handler body, and one
list per started goroutine holding the effects of its body. -/
structure Run where
  handler : List Event
  goroutines : List (List Event)
  deriving DecidableEq, Repr

/-- The status codes passed to `WriteHeader`, in order. -/
def statuses : List Event → List Nat
  | [] => []
  | .writeHeader c :: t => c :: statuses t
  | _ :: t => statuses t

/-- The `(resourceName, fromVersion)` arguments of the `ScanFromVersion` calls, in order. -/
def scans : List Event → List (String × Version)
  | [] => []
  | .callScanFromVersion _ n v :: t => (n, v) :: scans t
  | _ :: t => scans t

/-- The actions of the `logger.Error` records, in order. -/
def errorLogs : List Event → List (String × GoError)
  | [] => []
  | .logError _ a e _ :: t => (a, e) :: errorLogs t
  | _ :: t => errorLogs t

/-- The actions of the `logger.Info` records, in order. -/
def infoLogs : List Event → List String
  | [] => []
  | .logInfo _ a _ :: t => a :: infoLogs t
  | _ :: t => infoLogs t

/-- The names passed to `dbPipeline.Resource`, in order. -/
def resourceLookups : List Event → List String
  | [] => []
  | .callResource n :: t => n :: resourceLookups t
  | _ :: t => resourceLookups t

/-- The raw secrets passed to the credential resolver, in order. -/
def evaluations : List Event → List String
  | [] => []
  | .callEvaluate raw :: t => raw :: evaluations t
  | _ :: t => evaluations t

/-- The identities passed to `FindResourceConfigByID`, in order. -/
def configLookups : List Event → List Int
  | [] => []
  | .callFindResourceConfigByID i :: t => i :: configLookups t
  | _ :: t => configLookups t

/-- The arguments of the `GetResourcesByWebhookToken` calls, in order. -/
def sharedLookups : List Event → List (String × String × String)
  | [] => []
  | .callGetResourcesByWebhookToken a b c :: t => (a, b, c) :: sharedLookups t
  | _ :: t => sharedLookups t

/-- The status a `net/http` response carries for a sequence of `WriteHeader`
calls: the first call fixes it and later calls are ignored; with no call at
all the server sends 200 when the handler returns. -/
def effectiveStatus (codes : List Nat) : Nat :=
  match codes with
  | [] => StatusOK
  | c :: _ => c

/-- Every effect of a run: the handler body, then each goroutine body. -/
def Run.all (r : Run) : List Event :=
  r.handler ++ r.goroutines.foldr (fun g acc => g ++ acc) []

/-! ## `CheckResourceWebHook` -/

/-- The body of the goroutine started at line 49 (`go func() { ... }()`),
lines 50 to 70. -/
def checkResourceWebHookGo (s : Server) (logger : Logger) (resourceName : String)
    (pipelineResource : DBResource) : List Event :=
  let resourceConfigId := pipelineResource.ResourceConfigID
  let r := s.FindResourceConfigByID resourceConfigId
  let t := [Event.callFindResourceConfigByID resourceConfigId]
  match r.err with
  | some err =>
    t ++ [.logError logger "failed-to-get-resource-config" err
            [("resource-config-id", .int resourceConfigId)]]
  | none =>
    if r.found then
      let l := r.resourceConfig.LatestVersion
      let t := t ++ [.callLatestVersion resourceConfigId]
      match l.err with
      | some err =>
        t ++ [.logError logger "failed-to-get-latest-resource-version" err
                [("resource-config-id", .int resourceConfigId)]]
      | none =>
        let fromVersion : Version := if l.found then l.version.Version else none
        t ++ [.callNewResourceScanner, .callScanFromVersion logger resourceName fromVersion]
    else
      t ++ [.callNewResourceScanner, .callScanFromVersion logger resourceName none]

/-- The handler returned by `Server.CheckResourceWebHook(dbPipeline)`, lines 18 to 74. -/
def CheckResourceWebHook (s : Server) (dbPipeline : Pipeline) (r : Request) : Run :=
  let logger := s.logger.Session "check-resource-webhook"
  let resourceName := rataParam r "resource_name"
  let webhookToken := r.query.Get "webhook_token"
  if webhookToken = "" then
    { handler := [.logInfo logger "no-webhook-token" [("error", .str "missing webhook_token")],
                  .writeHeader StatusBadRequest],
      goroutines := [] }
  else
    let res := dbPipeline.Resource resourceName
    let t := [Event.callResource resourceName]
    match res.err with
    | some err =>
      { handler := t ++ [.logError logger "database-error" err
                           [("resource-name", .str resourceName)],
                         .writeHeader StatusInternalServerError],
        goroutines := [] }
    | none =>
      if !res.found then
        { handler := t ++ [.logInfo logger "resource-not-found"
                             [("error", .str ("Resource not found " ++ resourceName))],
                           .writeHeader StatusNotFound],
          goroutines := [] }
      else
        let pipelineResource := res.resource
        let ev := s.Evaluate dbPipeline.TeamName dbPipeline.Name pipelineResource.WebhookToken
        let t := t ++ [.callNewVariables dbPipeline.TeamName dbPipeline.Name,
                       .callEvaluate pipelineResource.WebhookToken]
        let token := ev.token
        if token ≠ webhookToken then
          { handler := t ++ [.logInfo logger "invalid-token"
                               [("error", .str ("invalid token for webhook " ++ webhookToken))],
                             .writeHeader StatusUnauthorized],
            goroutines := [] }
        else
          { handler := t ++ [.writeHeader StatusOK],
            goroutines := [checkResourceWebHookGo s logger resourceName pipelineResource] }

/-! ## `CheckSharedWebHook` -/

/-- The type switch of lines 111 to 118 on an error value. -/
def sharedStatus : Option GoError → Nat
  | some (.resourceNotFound _) => StatusNotFound
  | some (.other _) => StatusInternalServerError
  | none => StatusOK

/-- The handler `Server.CheckSharedWebHook`, lines 78 to 119.

After the lookup of line 102 the error branch (lines 103 to 106) logs and
writes 500 and does not return. Nothing is done with `resources` (line 108 is
a comment). Line 110 sets `err` to `nil`, so the type switch runs on `nil`. -/
def CheckSharedWebHook (s : Server) (r : Request) : Run :=
  let logger := s.logger.Session "check-resource-shared-webhook"
  let webhookToken := r.query.Get "webhook_token"
  if webhookToken = "" then
    { handler := [.logInfo logger "no-webhook-token" [("error", .str "missing webhook_token")],
                  .writeHeader StatusBadRequest],
      goroutines := [] }
  else
    let sourceKey := r.query.Get "source_key"
    if sourceKey = "" then
      { handler := [.logInfo logger "no-source-key" [("error", .str "missing source_key")],
                    .writeHeader StatusBadRequest],
        goroutines := [] }
    else
      let sourceValue := r.query.Get "source_value"
      if sourceValue = "" then
        { handler := [.logInfo logger "no-source-value" [("error", .str "missing source_value")],
                      .writeHeader StatusBadRequest],
          goroutines := [] }
      else
        let res := s.GetResourcesByWebhookToken webhookToken sourceKey sourceValue
        let t := [Event.callGetResourcesByWebhookToken webhookToken sourceKey sourceValue]
        let t :=
          match res.err with
          | some _ =>
            t ++ [.logError s.hLog "failed-to-get-resources" (.other "sorry") [],
                  .writeHeader StatusInternalServerError]
          | none => t
        let err : Option GoError := none
        { handler := t ++ [.writeHeader (sharedStatus err)],
          goroutines := [] }

/-! ## Sample collaborators -/

/-- A tracked resource "repo-a" with a templated webhook secret and
configuration identity 7. -/
def repoA : DBResource :=
  { Name := "repo-a", WebhookToken := "((hook-secret))", ResourceConfigID := 7 }

/-- A second tracked resource, with configuration identity 9. -/
def repoB : DBResource :=
  { Name := "repo-b", WebhookToken := "((hook-secret))", ResourceConfigID := 9 }

/-- A pipeline holding "repo-a" only. -/
def samplePipeline : Pipeline :=
  { TeamName := "main", Name := "ci",
    Resource := fun n =>
      if n = "repo-a" then { resource := repoA, found := true, err := none }
      else { resource := repoA, found := false, err := none } }

/-- A pipeline whose resource lookup fails, with the found flag set. -/
def brokenPipeline : Pipeline :=
  { TeamName := "main", Name := "ci",
    Resource := fun _ => { resource := repoA, found := true, err := some (.other "db down") } }

/-- Latest version known for configuration identity 7. -/
def v7 : Version := some [("ref", "abc123")]

/-- Latest version known for configuration identity 9. -/
def v9 : Version := some [("ref", "fff999")]

/-- A server whose credential resolver yields "s3cr3t", whose configuration
identities 7 and 9 have latest versions, and whose identity 8 exists without
a version. -/
def sampleServer : Server :=
  { logger := { task := "atc" }, hLog := { task := "hLog" },
    Evaluate := fun _ _ _ => { token := "s3cr3t", err := none },
    FindResourceConfigByID := fun i =>
      if i = 7 then
        { resourceConfig := { LatestVersion := { version := { Version := v7 }, found := true, err := none } },
          found := true, err := none }
      else if i = 9 then
        { resourceConfig := { LatestVersion := { version := { Version := v9 }, found := true, err := none } },
          found := true, err := none }
      else if i = 8 then
        { resourceConfig := { LatestVersion := { version := { Version := none }, found := false, err := none } },
          found := true, err := none }
      else
        { resourceConfig := { LatestVersion := { version := { Version := none }, found := false, err := none } },
          found := false, err := none },
    GetResourcesByWebhookToken := fun _ _ _ => { resources := [repoA, repoB], err := none } }

/-- The sample server with a credential resolver that fails, returning the
empty string with its error. -/
def credFailServer : Server :=
  { sampleServer with
    Evaluate := fun _ _ _ => { token := "", err := some (.other "credential backend unavailable") } }

/-- A request for "repo-a" carrying the given query. -/
def requestFor (query : Values) : Request :=
  { params := [("resource_name", "repo-a")], query := query }

/-- A request for "repo-a" with the matching token. -/
def goodRequest : Request := requestFor [("webhook_token", ["s3cr3t"])]

/-- A request for "repo-a" with a token that differs in case only. -/
def wrongCaseRequest : Request := requestFor [("webhook_token", ["S3CR3T"])]

/-- A request for a resource the sample pipeline does not hold. -/
def unknownRequest : Request :=
  { params := [("resource_name", "nope")], query := [("webhook_token", ["s3cr3t"])] }

/-- The sample server with a resource-config lookup that fails. -/
def configFailServer : Server :=
  { sampleServer with
    FindResourceConfigByID := fun _ =>
      { resourceConfig := { LatestVersion := { version := { Version := v7 }, found := true, err := none } },
        found := true, err := some (.other "config lookup failed") } }

/-- The sample server on which every configuration identity is absent. -/
def noConfigServer : Server :=
  { sampleServer with
    FindResourceConfigByID := fun _ =>
      { resourceConfig := { LatestVersion := { version := { Version := v7 }, found := true, err := none } },
        found := false, err := none } }

/-- A shared-webhook request with all three query parameters. -/
def sharedRequest : Request :=
  { params := [],
    query := [("webhook_token", ["shared-tok"]), ("source_key", ["org"]),
              ("source_value", ["acme"])] }

/-- A shared-webhook request whose `source_value` is missing. -/
def sharedRequestNoValue : Request :=
  { params := [],
    query := [("webhook_token", ["shared-tok"]), ("source_key", ["org"])] }

/-- The sample server with a shared lookup that fails. -/
def sharedFailServer : Server :=
  { sampleServer with
    GetResourcesByWebhookToken := fun _ _ _ =>
      { resources := [], err := some (.other "db down") } }

/-! ## Lemmas on the observers -/

@[simp] theorem statuses_append (a b : List Event) :
    statuses (a ++ b) = statuses a ++ statuses b := by
  induction a with
  | nil => rfl
  | cons e t ih => cases e <;> simp [statuses, ih]

@[simp] theorem scans_append (a b : List Event) :
    scans (a ++ b) = scans a ++ scans b := by
  induction a with
  | nil => rfl
  | cons e t ih => cases e <;> simp [scans, ih]

@[simp] theorem errorLogs_append (a b : List Event) :
    errorLogs (a ++ b) = errorLogs a ++ errorLogs b := by
  induction a with
  | nil => rfl
  | cons e t ih => cases e <;> simp [errorLogs, ih]

/-- The method `Get` yields the empty string for a missing key. -/
theorem Values.Get_of_missing (v : Values) (key : String) (h : v.lookup key = none) :
    v.Get key = "" := by
  simp [Values.Get, h]

/-- The method `Get` yields the empty string exactly when the key is missing,
has no value, or has the empty string as its first value. -/
theorem Values.Get_eq_empty_iff (v : Values) (key : String) :
    v.Get key = "" ↔
      (v.lookup key = none ∨ v.lookup key = some [] ∨ ∃ t, v.lookup key = some ("" :: t)) := by
  unfold Values.Get
  cases h : List.lookup key v with
  | none => simp
  | some l =>
    cases l with
    | nil => simp
    | cons x t =>
      constructor
      · intro hx
        simp only at hx
        subst hx
        simp
      · intro hx
        simpa using hx

/-! ## `CheckResourceWebHook`: rejected requests -/

/-- The error of the credential resolver is never inspected: whenever the
resource is found, the handler answers 401 or 200 according to the string
returned next to the error, and never 500. -/
theorem CheckResourceWebHook_evaluate_error_ignored (s : Server) (p : Pipeline) (r : Request)
    (htok : r.query.Get "webhook_token" ≠ "")
    (herr : (p.Resource (rataParam r "resource_name")).err = none)
    (hfound : (p.Resource (rataParam r "resource_name")).found = true) :
    statuses (CheckResourceWebHook s p r).all = [StatusUnauthorized] ∨
      statuses (CheckResourceWebHook s p r).all = [StatusOK] := by
  by_cases hne : (s.Evaluate p.TeamName p.Name
      (p.Resource (rataParam r "resource_name")).resource.WebhookToken).token
        = r.query.Get "webhook_token"
  · right
    simp only [CheckResourceWebHook, Run.all, htok, herr, hfound, hne]
    simp [statuses, checkResourceWebHookGo]
    split
    · simp [statuses]
    · split
      · split <;> simp [statuses]
      · simp [statuses]
  · left
    simp [CheckResourceWebHook, Run.all, htok, herr, hfound, hne, statuses]

/-- C1, evaluated on the code: for the request `webhook_token=s3cr3t` on the
found resource "repo-a", when the credential resolver fails (returning the
empty string and an error), the handler writes 401 and logs the single info
record "invalid-token"; it writes no 500 and logs no error record. No scan is
dispatched. -/
theorem CheckResourceWebHook_evaluate_error_at_sample :
    (samplePipeline.Resource (rataParam goodRequest "resource_name")).found = true ∧
    (credFailServer.Evaluate "main" "ci" "((hook-secret))").err
        = some (.other "credential backend unavailable") ∧
    statuses (CheckResourceWebHook credFailServer samplePipeline goodRequest).all
        = [StatusUnauthorized] ∧
    infoLogs (CheckResourceWebHook credFailServer samplePipeline goodRequest).all
        = ["invalid-token"] ∧
    errorLogs (CheckResourceWebHook credFailServer samplePipeline goodRequest).all = [] ∧
    scans (CheckResourceWebHook credFailServer samplePipeline goodRequest).all = [] := by
  decide

/-- C2: with a non-empty token, a found resource and a secret that evaluates
without error to a string other than the token, the handler writes 401, once,
and no `ScanFromVersion` call is made (no goroutine is started). -/
theorem CheckResourceWebHook_token_mismatch (s : Server) (p : Pipeline) (r : Request)
    (htok : r.query.Get "webhook_token" ≠ "")
    (herr : (p.Resource (rataParam r "resource_name")).err = none)
    (hfound : (p.Resource (rataParam r "resource_name")).found = true)
    (_hev : (s.Evaluate p.TeamName p.Name
      (p.Resource (rataParam r "resource_name")).resource.WebhookToken).err = none)
    (hne : (s.Evaluate p.TeamName p.Name
      (p.Resource (rataParam r "resource_name")).resource.WebhookToken).token
        ≠ r.query.Get "webhook_token") :
    statuses (CheckResourceWebHook s p r).all = [StatusUnauthorized] ∧
      scans (CheckResourceWebHook s p r).all = [] ∧
      (CheckResourceWebHook s p r).goroutines = [] := by
  simp [CheckResourceWebHook, Run.all, htok, herr, hfound, hne, statuses, scans]

/-- Witness for C2: the token "S3CR3T" differs from the secret "s3cr3t" in
case only. -/
theorem CheckResourceWebHook_token_mismatch_witness :
    statuses (CheckResourceWebHook sampleServer samplePipeline wrongCaseRequest).all
        = [StatusUnauthorized] ∧
      scans (CheckResourceWebHook sampleServer samplePipeline wrongCaseRequest).all = [] ∧
      (CheckResourceWebHook sampleServer samplePipeline wrongCaseRequest).goroutines = [] :=
  CheckResourceWebHook_token_mismatch sampleServer samplePipeline wrongCaseRequest
    (by decide) (by decide) (by decide) (by decide) (by decide)

/-- C3: when `webhook_token` is missing from the query or empty, the handler
writes 400, once, and makes no resource lookup, no credential evaluation and no
`ScanFromVersion` call, for every server and pipeline. -/
theorem CheckResourceWebHook_missing_token (s : Server) (p : Pipeline) (r : Request)
    (h : r.query.lookup "webhook_token" = none ∨ r.query.Get "webhook_token" = "") :
    statuses (CheckResourceWebHook s p r).all = [StatusBadRequest] ∧
      resourceLookups (CheckResourceWebHook s p r).all = [] ∧
      evaluations (CheckResourceWebHook s p r).all = [] ∧
      scans (CheckResourceWebHook s p r).all = [] ∧
      (CheckResourceWebHook s p r).goroutines = [] := by
  have h0 : r.query.Get "webhook_token" = "" := by
    rcases h with h | h
    · exact Values.Get_of_missing _ _ h
    · exact h
  simp [CheckResourceWebHook, Run.all, h0, statuses, scans, resourceLookups, evaluations]

/-- Witness for C3: a request for "repo-a" with an empty query. -/
theorem CheckResourceWebHook_missing_token_witness :
    statuses (CheckResourceWebHook sampleServer samplePipeline (requestFor [])).all
        = [StatusBadRequest] ∧
      resourceLookups (CheckResourceWebHook sampleServer samplePipeline (requestFor [])).all = [] ∧
      evaluations (CheckResourceWebHook sampleServer samplePipeline (requestFor [])).all = [] ∧
      scans (CheckResourceWebHook sampleServer samplePipeline (requestFor [])).all = [] ∧
      (CheckResourceWebHook sampleServer samplePipeline (requestFor [])).goroutines = [] :=
  CheckResourceWebHook_missing_token sampleServer samplePipeline (requestFor [])
    (Or.inl (by decide))

/-- C4: with a non-empty token, when the resource lookup returns no error and
reports the resource as not found, the handler writes 404, once, and no
`ScanFromVersion` call is made. -/
theorem CheckResourceWebHook_not_found (s : Server) (p : Pipeline) (r : Request)
    (htok : r.query.Get "webhook_token" ≠ "")
    (herr : (p.Resource (rataParam r "resource_name")).err = none)
    (hfound : (p.Resource (rataParam r "resource_name")).found = false) :
    statuses (CheckResourceWebHook s p r).all = [StatusNotFound] ∧
      scans (CheckResourceWebHook s p r).all = [] ∧
      (CheckResourceWebHook s p r).goroutines = [] := by
  simp [CheckResourceWebHook, Run.all, htok, herr, hfound, statuses, scans]

/-- Witness for C4: the sample pipeline holds no resource "nope". -/
theorem CheckResourceWebHook_not_found_witness :
    statuses (CheckResourceWebHook sampleServer samplePipeline unknownRequest).all
        = [StatusNotFound] ∧
      scans (CheckResourceWebHook sampleServer samplePipeline unknownRequest).all = [] ∧
      (CheckResourceWebHook sampleServer samplePipeline unknownRequest).goroutines = [] :=
  CheckResourceWebHook_not_found sampleServer samplePipeline unknownRequest
    (by decide) (by decide) (by decide)

/-- C5: with a non-empty token, when the resource lookup returns an error `e`,
the handler writes 500, once, whatever the found flag is, logs exactly one
error record, "database-error" carrying `e`, and no `ScanFromVersion` call is
made. -/
theorem CheckResourceWebHook_lookup_error (s : Server) (p : Pipeline) (r : Request)
    (e : GoError)
    (htok : r.query.Get "webhook_token" ≠ "")
    (herr : (p.Resource (rataParam r "resource_name")).err = some e) :
    statuses (CheckResourceWebHook s p r).all = [StatusInternalServerError] ∧
      errorLogs (CheckResourceWebHook s p r).all = [("database-error", e)] ∧
      scans (CheckResourceWebHook s p r).all = [] ∧
      (CheckResourceWebHook s p r).goroutines = [] := by
  simp [CheckResourceWebHook, Run.all, htok, herr, statuses, scans, errorLogs]

/-- Witness for C5: the lookup fails with the found flag set. -/
theorem CheckResourceWebHook_lookup_error_witness :
    (brokenPipeline.Resource (rataParam goodRequest "resource_name")).found = true ∧
    statuses (CheckResourceWebHook sampleServer brokenPipeline goodRequest).all
        = [StatusInternalServerError] ∧
      errorLogs (CheckResourceWebHook sampleServer brokenPipeline goodRequest).all
        = [("database-error", .other "db down")] ∧
      scans (CheckResourceWebHook sampleServer brokenPipeline goodRequest).all = [] ∧
      (CheckResourceWebHook sampleServer brokenPipeline goodRequest).goroutines = [] :=
  ⟨by decide, CheckResourceWebHook_lookup_error sampleServer brokenPipeline goodRequest
    (.other "db down") (by decide) (by decide)⟩

/-! ## `CheckResourceWebHook`: the asynchronous path -/

/-- C6: for an authenticated request (non-empty token, resource found, the
evaluated secret equal to the token) whose resource has configuration identity
`X`, when the lookup of `X` finds a config and its latest version exists, the
handler writes 200, once, starts one goroutine, and exactly one
`ScanFromVersion` call is made, for the requested resource name and with the
version of that latest version. The only identity looked up is `X`, and the
run does not depend on what the factory holds for any other identity. -/
theorem CheckResourceWebHook_resume_from_latest (s : Server) (p : Pipeline) (r : Request)
    (htok : r.query.Get "webhook_token" ≠ "")
    (herr : (p.Resource (rataParam r "resource_name")).err = none)
    (hfound : (p.Resource (rataParam r "resource_name")).found = true)
    (hauth : (s.Evaluate p.TeamName p.Name
      (p.Resource (rataParam r "resource_name")).resource.WebhookToken).token
        = r.query.Get "webhook_token")
    (hcerr : (s.FindResourceConfigByID
      (p.Resource (rataParam r "resource_name")).resource.ResourceConfigID).err = none)
    (hcfound : (s.FindResourceConfigByID
      (p.Resource (rataParam r "resource_name")).resource.ResourceConfigID).found = true)
    (hlerr : (s.FindResourceConfigByID
      (p.Resource (rataParam r "resource_name")).resource.ResourceConfigID
        ).resourceConfig.LatestVersion.err = none)
    (hlfound : (s.FindResourceConfigByID
      (p.Resource (rataParam r "resource_name")).resource.ResourceConfigID
        ).resourceConfig.LatestVersion.found = true) :
    statuses (CheckResourceWebHook s p r).all = [StatusOK] ∧
      (CheckResourceWebHook s p r).goroutines.length = 1 ∧
      scans (CheckResourceWebHook s p r).all
        = [(rataParam r "resource_name",
            (s.FindResourceConfigByID
              (p.Resource (rataParam r "resource_name")).resource.ResourceConfigID
                ).resourceConfig.LatestVersion.version.Version)] ∧
      configLookups (CheckResourceWebHook s p r).all
        = [(p.Resource (rataParam r "resource_name")).resource.ResourceConfigID] ∧
      ∀ f : Int → FindResourceConfigResult,
        f (p.Resource (rataParam r "resource_name")).resource.ResourceConfigID
          = s.FindResourceConfigByID
              (p.Resource (rataParam r "resource_name")).resource.ResourceConfigID →
        CheckResourceWebHook { s with FindResourceConfigByID := f } p r
          = CheckResourceWebHook s p r := by
  refine ⟨?_, ?_, ?_, ?_, ?_⟩
  · simp [CheckResourceWebHook, checkResourceWebHookGo, Run.all, htok, herr, hfound, hauth,
      hcerr, hcfound, hlerr, hlfound, statuses]
  · simp [CheckResourceWebHook, htok, herr, hfound, hauth]
  · simp [CheckResourceWebHook, checkResourceWebHookGo, Run.all, htok, herr, hfound, hauth,
      hcerr, hcfound, hlerr, hlfound, scans]
  · simp [CheckResourceWebHook, checkResourceWebHookGo, Run.all, htok, herr, hfound, hauth,
      hcerr, hcfound, hlerr, hlfound, configLookups]
  · intro f hf
    simp [CheckResourceWebHook, checkResourceWebHookGo, htok, herr, hfound, hauth, hf]

/-- Witness for C6: "repo-a" has identity 7, whose latest version is `v7`. -/
theorem CheckResourceWebHook_resume_from_latest_witness :
    scans (CheckResourceWebHook sampleServer samplePipeline goodRequest).all
        = [("repo-a", v7)] ∧
      statuses (CheckResourceWebHook sampleServer samplePipeline goodRequest).all
        = [StatusOK] :=
  have h := CheckResourceWebHook_resume_from_latest sampleServer samplePipeline goodRequest
    (by decide) (by decide) (by decide) (by decide) (by decide) (by decide) (by decide)
    (by decide)
  ⟨h.2.2.1, h.1⟩

/-- C7: for an authenticated request, when the lookup of the resource's
configuration identity returns no error and not found, or finds a config whose
`LatestVersion` returns no error and not found, the handler writes 200 and
exactly one `ScanFromVersion` call is made, for the requested resource name,
with the nil version. -/
theorem CheckResourceWebHook_resume_from_empty (s : Server) (p : Pipeline) (r : Request)
    (htok : r.query.Get "webhook_token" ≠ "")
    (herr : (p.Resource (rataParam r "resource_name")).err = none)
    (hfound : (p.Resource (rataParam r "resource_name")).found = true)
    (hauth : (s.Evaluate p.TeamName p.Name
      (p.Resource (rataParam r "resource_name")).resource.WebhookToken).token
        = r.query.Get "webhook_token")
    (hcerr : (s.FindResourceConfigByID
      (p.Resource (rataParam r "resource_name")).resource.ResourceConfigID).err = none)
    (habsent : (s.FindResourceConfigByID
        (p.Resource (rataParam r "resource_name")).resource.ResourceConfigID).found = false ∨
      ((s.FindResourceConfigByID
        (p.Resource (rataParam r "resource_name")).resource.ResourceConfigID).found = true ∧
       (s.FindResourceConfigByID
        (p.Resource (rataParam r "resource_name")).resource.ResourceConfigID
          ).resourceConfig.LatestVersion.err = none ∧
       (s.FindResourceConfigByID
        (p.Resource (rataParam r "resource_name")).resource.ResourceConfigID
          ).resourceConfig.LatestVersion.found = false)) :
    statuses (CheckResourceWebHook s p r).all = [StatusOK] ∧
      (CheckResourceWebHook s p r).goroutines.length = 1 ∧
      scans (CheckResourceWebHook s p r).all = [(rataParam r "resource_name", none)] := by
  rcases habsent with hc | ⟨hc, hle, hlf⟩
  · simp [CheckResourceWebHook, checkResourceWebHookGo, Run.all, htok, herr, hfound, hauth,
      hcerr, hc, statuses, scans]
  · simp [CheckResourceWebHook, checkResourceWebHookGo, Run.all, htok, herr, hfound, hauth,
      hcerr, hc, hle, hlf, statuses, scans]

/-- Witness for C7: on `noConfigServer` the identity of "repo-a" is absent. -/
theorem CheckResourceWebHook_resume_from_empty_witness :
    statuses (CheckResourceWebHook noConfigServer samplePipeline goodRequest).all
        = [StatusOK] ∧
      (CheckResourceWebHook noConfigServer samplePipeline goodRequest).goroutines.length = 1 ∧
      scans (CheckResourceWebHook noConfigServer samplePipeline goodRequest).all
        = [("repo-a", none)] :=
  CheckResourceWebHook_resume_from_empty noConfigServer samplePipeline goodRequest
    (by decide) (by decide) (by decide) (by decide) (by decide) (Or.inl (by decide))

/-- C8: for an authenticated request, when `FindResourceConfigByID` returns an
error `e`, or finds a config whose `LatestVersion` returns an error `e`, no
`ScanFromVersion` call is made, exactly one error record is logged and it
carries `e`, and the handler writes 200. -/
theorem CheckResourceWebHook_async_lookup_error (s : Server) (p : Pipeline) (r : Request)
    (e : GoError)
    (htok : r.query.Get "webhook_token" ≠ "")
    (herr : (p.Resource (rataParam r "resource_name")).err = none)
    (hfound : (p.Resource (rataParam r "resource_name")).found = true)
    (hauth : (s.Evaluate p.TeamName p.Name
      (p.Resource (rataParam r "resource_name")).resource.WebhookToken).token
        = r.query.Get "webhook_token")
    (hfail : (s.FindResourceConfigByID
        (p.Resource (rataParam r "resource_name")).resource.ResourceConfigID).err = some e ∨
      ((s.FindResourceConfigByID
        (p.Resource (rataParam r "resource_name")).resource.ResourceConfigID).err = none ∧
       (s.FindResourceConfigByID
        (p.Resource (rataParam r "resource_name")).resource.ResourceConfigID).found = true ∧
       (s.FindResourceConfigByID
        (p.Resource (rataParam r "resource_name")).resource.ResourceConfigID
          ).resourceConfig.LatestVersion.err = some e)) :
    scans (CheckResourceWebHook s p r).all = [] ∧
      (errorLogs (CheckResourceWebHook s p r).all).length = 1 ∧
      (errorLogs (CheckResourceWebHook s p r).all = [("failed-to-get-resource-config", e)] ∨
        errorLogs (CheckResourceWebHook s p r).all
          = [("failed-to-get-latest-resource-version", e)]) ∧
      statuses (CheckResourceWebHook s p r).all = [StatusOK] := by
  rcases hfail with hc | ⟨hc, hcf, hle⟩
  · simp [CheckResourceWebHook, checkResourceWebHookGo, Run.all, htok, herr, hfound, hauth,
      hc, statuses, scans, errorLogs]
  · simp [CheckResourceWebHook, checkResourceWebHookGo, Run.all, htok, herr, hfound, hauth,
      hc, hcf, hle, statuses, scans, errorLogs]

/-- Witness for C8: on `configFailServer` the config lookup fails. -/
theorem CheckResourceWebHook_async_lookup_error_witness :
    scans (CheckResourceWebHook configFailServer samplePipeline goodRequest).all = [] ∧
      (errorLogs (CheckResourceWebHook configFailServer samplePipeline goodRequest).all).length
        = 1 ∧
      statuses (CheckResourceWebHook configFailServer samplePipeline goodRequest).all
        = [StatusOK] :=
  have h := CheckResourceWebHook_async_lookup_error configFailServer samplePipeline goodRequest
    (.other "config lookup failed") (by decide) (by decide) (by decide) (by decide)
    (Or.inl (by decide))
  ⟨h.1, h.2.1, h.2.2.2⟩

/-! ## `CheckSharedWebHook` -/

/-- C9: when at least one of `webhook_token`, `source_key`, `source_value` is
missing from the query or empty, the handler writes 400, once, and makes no
`GetResourcesByWebhookToken` call. -/
theorem CheckSharedWebHook_missing_parameter (s : Server) (r : Request)
    (h : (r.query.lookup "webhook_token" = none ∨ r.query.Get "webhook_token" = "") ∨
         (r.query.lookup "source_key" = none ∨ r.query.Get "source_key" = "") ∨
         (r.query.lookup "source_value" = none ∨ r.query.Get "source_value" = "")) :
    statuses (CheckSharedWebHook s r).all = [StatusBadRequest] ∧
      sharedLookups (CheckSharedWebHook s r).all = [] := by
  have h0 : r.query.Get "webhook_token" = "" ∨ r.query.Get "source_key" = "" ∨
      r.query.Get "source_value" = "" := by
    rcases h with (h | h) | (h | h) | (h | h)
    · exact Or.inl (Values.Get_of_missing _ _ h)
    · exact Or.inl h
    · exact Or.inr (Or.inl (Values.Get_of_missing _ _ h))
    · exact Or.inr (Or.inl h)
    · exact Or.inr (Or.inr (Values.Get_of_missing _ _ h))
    · exact Or.inr (Or.inr h)
  by_cases h1 : r.query.Get "webhook_token" = ""
  · simp [CheckSharedWebHook, Run.all, h1, statuses, sharedLookups]
  · by_cases h2 : r.query.Get "source_key" = ""
    · simp [CheckSharedWebHook, Run.all, h1, h2, statuses, sharedLookups]
    · have h3 : r.query.Get "source_value" = "" := by
        rcases h0 with h | h | h
        · exact absurd h h1
        · exact absurd h h2
        · exact h
      simp [CheckSharedWebHook, Run.all, h1, h2, h3, statuses, sharedLookups]

/-- Witness for C9: a request without `source_value`. -/
theorem CheckSharedWebHook_missing_parameter_witness :
    statuses (CheckSharedWebHook sampleServer sharedRequestNoValue).all = [StatusBadRequest] ∧
      sharedLookups (CheckSharedWebHook sampleServer sharedRequestNoValue).all = [] :=
  CheckSharedWebHook_missing_parameter sampleServer sharedRequestNoValue
    (Or.inr (Or.inr (Or.inl (by decide))))

/-- The shared handler starts no goroutine and makes no `ScanFromVersion`
call, for every server and request. -/
theorem CheckSharedWebHook_never_dispatches (s : Server) (r : Request) :
    (CheckSharedWebHook s r).goroutines = [] ∧ scans (CheckSharedWebHook s r).all = [] := by
  unfold CheckSharedWebHook
  simp only []
  split
  · simp [Run.all, scans]
  · split
    · simp [Run.all, scans]
    · split
      · simp [Run.all, scans]
      · constructor
        · rfl
        · simp only [Run.all, List.foldr, List.append_nil]
          split <;> simp [scans]

/-- C10, evaluated on the code: for the request with all three parameters
present, `GetResourcesByWebhookToken` returns two resources without error, the
handler makes that one lookup and writes 200, and it starts no goroutine and
makes no `ScanFromVersion` call: zero dispatch attempts for two matches. -/
theorem CheckSharedWebHook_two_matches_no_dispatch :
    (sampleServer.GetResourcesByWebhookToken "shared-tok" "org" "acme").resources.length = 2 ∧
    (sampleServer.GetResourcesByWebhookToken "shared-tok" "org" "acme").err = none ∧
    sharedLookups (CheckSharedWebHook sampleServer sharedRequest).all
        = [("shared-tok", "org", "acme")] ∧
    statuses (CheckSharedWebHook sampleServer sharedRequest).all = [StatusOK] ∧
    (CheckSharedWebHook sampleServer sharedRequest).goroutines = [] ∧
    scans (CheckSharedWebHook sampleServer sharedRequest).all = [] := by
  decide

/-! ## `WriteHeader` calls -/

/-- The goroutine body never calls `WriteHeader`. -/
theorem checkResourceWebHookGo_statuses (s : Server) (l : Logger) (n : String)
    (res : DBResource) : statuses (checkResourceWebHookGo s l n res) = [] := by
  unfold checkResourceWebHookGo
  simp only []
  split
  · simp [statuses]
  · split
    · split
      · simp [statuses]
      · simp [statuses]
    · simp [statuses]

/-- The named handler calls `WriteHeader` exactly once, for every server,
pipeline and request. -/
theorem CheckResourceWebHook_writes_header_once (s : Server) (p : Pipeline) (r : Request) :
    (statuses (CheckResourceWebHook s p r).all).length = 1 := by
  unfold CheckResourceWebHook
  simp only []
  split
  · simp [Run.all, statuses]
  · split
    · simp [Run.all, statuses]
    · split
      · simp [Run.all, statuses]
      · split
        · simp [Run.all, statuses]
        · simp [Run.all, statuses, checkResourceWebHookGo_statuses]

/-- The shared handler, with all three parameters present and a lookup that
returns an error, calls `WriteHeader` twice: 500 at line 105, and, as the
error branch does not return, 200 at line 117. -/
theorem CheckSharedWebHook_lookup_error_writes_twice (s : Server) (r : Request) (e : GoError)
    (h1 : r.query.Get "webhook_token" ≠ "")
    (h2 : r.query.Get "source_key" ≠ "")
    (h3 : r.query.Get "source_value" ≠ "")
    (herr : (s.GetResourcesByWebhookToken (r.query.Get "webhook_token")
      (r.query.Get "source_key") (r.query.Get "source_value")).err = some e) :
    statuses (CheckSharedWebHook s r).all = [StatusInternalServerError, StatusOK] := by
  simp [CheckSharedWebHook, Run.all, h1, h2, h3, herr, statuses, sharedStatus]

/-- The shared handler calls `WriteHeader` exactly once on every path other
than the lookup-error path. -/
theorem CheckSharedWebHook_writes_header_once_otherwise (s : Server) (r : Request)
    (h : r.query.Get "webhook_token" = "" ∨ r.query.Get "source_key" = "" ∨
      r.query.Get "source_value" = "" ∨
      (s.GetResourcesByWebhookToken (r.query.Get "webhook_token")
        (r.query.Get "source_key") (r.query.Get "source_value")).err = none) :
    (statuses (CheckSharedWebHook s r).all).length = 1 := by
  by_cases h1 : r.query.Get "webhook_token" = ""
  · simp [CheckSharedWebHook, Run.all, h1, statuses]
  · by_cases h2 : r.query.Get "source_key" = ""
    · simp [CheckSharedWebHook, Run.all, h1, h2, statuses]
    · by_cases h3 : r.query.Get "source_value" = ""
      · simp [CheckSharedWebHook, Run.all, h1, h2, h3, statuses]
      · have h4 : (s.GetResourcesByWebhookToken (r.query.Get "webhook_token")
            (r.query.Get "source_key") (r.query.Get "source_value")).err = none := by
          rcases h with h | h | h | h
          · exact absurd h h1
          · exact absurd h h2
          · exact absurd h h3
          · exact h
        simp [CheckSharedWebHook, Run.all, h1, h2, h3, h4, statuses]

/-- C11, evaluated on the code: for the request with all three parameters
present, when `GetResourcesByWebhookToken` returns an error, the handler logs
one error record and calls `WriteHeader(500)`, so the response carries 500; it
then goes on to call `WriteHeader(200)`. -/
theorem CheckSharedWebHook_lookup_error_at_sample :
    (sharedFailServer.GetResourcesByWebhookToken "shared-tok" "org" "acme").err
        = some (.other "db down") ∧
    sharedLookups (CheckSharedWebHook sharedFailServer sharedRequest).all
        = [("shared-tok", "org", "acme")] ∧
    statuses (CheckSharedWebHook sharedFailServer sharedRequest).all
        = [StatusInternalServerError, StatusOK] ∧
    effectiveStatus (statuses (CheckSharedWebHook sharedFailServer sharedRequest).all)
        = StatusInternalServerError ∧
    (errorLogs (CheckSharedWebHook sharedFailServer sharedRequest).all).length = 1 := by
  decide

/-- C12, evaluated on the code: for the request with all three parameters
present, when `GetResourcesByWebhookToken` returns an error, the shared handler
calls `WriteHeader` twice, both times in the handler body. -/
theorem CheckSharedWebHook_writes_header_twice_at_sample :
    (statuses (CheckSharedWebHook sharedFailServer sharedRequest).all).length = 2 ∧
    (statuses (CheckSharedWebHook sharedFailServer sharedRequest).handler).length = 2 ∧
    (CheckSharedWebHook sharedFailServer sharedRequest).goroutines = [] := by
  decide

end Concourse
